import Mathlib

/-!
Verification development for the clippy credential-lifecycle subsystem
(src/src/lib/auth.ts).  The TypeScript source is shallowly embedded:
pure logic becomes Lean functions, filesystem and network effects become
explicit inputs (file contents, oracle outcomes) and explicit event
traces, and JavaScript value semantics (JSON.parse results, truthiness,
numeric coercion) are modelled by a small JsValue type.  Times are
epoch milliseconds as integers.
-/

namespace Clippy

/-- Result of JSON.parse, restricted to the value shapes this program can
meet: null, booleans, integer numbers, strings, arrays and objects.
JSON numbers with a fractional part or an exponent are outside the model
(the embedded parser rejects them); no claim depends on such inputs. -/
inductive JsValue where
  | null : JsValue
  | bool : Bool → JsValue
  | num : Int → JsValue
  | str : String → JsValue
  | arr : List JsValue → JsValue
  | obj : List (String × JsValue) → JsValue

/-- Skip JSON whitespace. -/
def skipWs : List Char → List Char
  | [] => []
  | c :: cs => if c = ' ' ∨ c = '\n' ∨ c = '\t' ∨ c = '\r' then skipWs cs else c :: cs

/-- Decode a JSON string escape character (\u escapes are outside the model). -/
def escChar (e : Char) : Option Char :=
  if e = 'n' then some '\n'
  else if e = 't' then some '\t'
  else if e = 'r' then some '\r'
  else if e = 'b' then some (Char.ofNat 8)
  else if e = 'f' then some (Char.ofNat 12)
  else if e = '"' ∨ e = '\\' ∨ e = '/' then some e
  else none

/-- Parse the body of a JSON string after the opening quote; returns the
decoded characters and the remaining input after the closing quote. -/
def parseStringChars : List Char → Option (List Char × List Char)
  | [] => none
  | c :: cs =>
    if c = '"' then some ([], cs)
    else if c = '\\' then
      match cs with
      | [] => none
      | e :: cs2 =>
        match escChar e with
        | none => none
        | some ec =>
          match parseStringChars cs2 with
          | none => none
          | some (body, rest) => some (ec :: body, rest)
    else
      match parseStringChars cs with
      | none => none
      | some (body, rest) => some (c :: body, rest)

/-- Split a leading run of decimal digits from the input. -/
def takeDigits : List Char → List Char × List Char
  | [] => ([], [])
  | c :: cs =>
    if c.isDigit then
      match takeDigits cs with
      | (ds, rest) => (c :: ds, rest)
    else ([], c :: cs)

/-- Numeric value of a digit run. -/
def digitsToNat (ds : List Char) : Nat :=
  ds.foldl (fun acc c => acc * 10 + (c.toNat - 48)) 0

/-- Parse a JSON integer numeral (optional minus sign, digit run).  A
numeral continued by a fraction or exponent marker is outside the model
and rejected. -/
def parseNumber (cs : List Char) : Option (Int × List Char) :=
  match cs with
  | '-' :: cs2 =>
    match takeDigits cs2 with
    | ([], _) => none
    | (ds, rest) =>
      match rest with
      | r :: _ =>
        if r = '.' ∨ r = 'e' ∨ r = 'E' then none
        else some (-(Int.ofNat (digitsToNat ds)), rest)
      | [] => some (-(Int.ofNat (digitsToNat ds)), [])
  | _ =>
    match takeDigits cs with
    | ([], _) => none
    | (ds, rest) =>
      match rest with
      | r :: _ =>
        if r = '.' ∨ r = 'e' ∨ r = 'E' then none
        else some (Int.ofNat (digitsToNat ds), rest)
      | [] => some (Int.ofNat (digitsToNat ds), [])

/-- Does the input start with the given literal characters? -/
def dropLit : List Char → List Char → Option (List Char)
  | [], cs => some cs
  | _, [] => none
  | l :: ls, c :: cs => if c = l then dropLit ls cs else none

mutual

/-- Recursive-descent JSON value parse, fuelled (fuel bounds nesting). -/
def parseValue : Nat → List Char → Option (JsValue × List Char)
  | 0, _ => none
  | Nat.succ fuel, cs =>
    match skipWs cs with
    | [] => none
    | c :: rest =>
      if c = 'n' then
        match dropLit ['u', 'l', 'l'] rest with
        | some cs2 => some (JsValue.null, cs2)
        | none => none
      else if c = 't' then
        match dropLit ['r', 'u', 'e'] rest with
        | some cs2 => some (JsValue.bool true, cs2)
        | none => none
      else if c = 'f' then
        match dropLit ['a', 'l', 's', 'e'] rest with
        | some cs2 => some (JsValue.bool false, cs2)
        | none => none
      else if c = '"' then
        match parseStringChars rest with
        | some (body, cs2) => some (JsValue.str (String.mk body), cs2)
        | none => none
      else if c = '\x7b' then
        match skipWs rest with
        | '\x7d' :: cs2 => some (JsValue.obj [], cs2)
        | cs2 =>
          match parseMembers fuel cs2 with
          | some (fields, cs3) => some (JsValue.obj fields, cs3)
          | none => none
      else if c = '[' then
        match skipWs rest with
        | ']' :: cs2 => some (JsValue.arr [], cs2)
        | cs2 =>
          match parseElems fuel cs2 with
          | some (elems, cs3) => some (JsValue.arr elems, cs3)
          | none => none
      else
        match parseNumber (c :: rest) with
        | some (n, cs2) => some (JsValue.num n, cs2)
        | none => none

/-- Parse one or more `"key": value` members followed by the closing brace. -/
def parseMembers : Nat → List Char → Option (List (String × JsValue) × List Char)
  | 0, _ => none
  | Nat.succ fuel, cs =>
    match skipWs cs with
    | '"' :: rest =>
      match parseStringChars rest with
      | none => none
      | some (key, cs1) =>
        match skipWs cs1 with
        | ':' :: cs2 =>
          match parseValue fuel cs2 with
          | none => none
          | some (v, cs3) =>
            match skipWs cs3 with
            | ',' :: cs4 =>
              match parseMembers fuel cs4 with
              | some (fields, cs5) => some ((String.mk key, v) :: fields, cs5)
              | none => none
            | '\x7d' :: cs4 => some ([(String.mk key, v)], cs4)
            | _ => none
        | _ => none
    | _ => none

/-- Parse one or more array elements followed by the closing bracket. -/
def parseElems : Nat → List Char → Option (List JsValue × List Char)
  | 0, _ => none
  | Nat.succ fuel, cs =>
    match parseValue fuel cs with
    | none => none
    | some (v, cs1) =>
      match skipWs cs1 with
      | ',' :: cs2 =>
        match parseElems fuel cs2 with
        | some (elems, cs3) => some (v :: elems, cs3)
        | none => none
      | ']' :: cs2 => some ([v], cs2)
      | _ => none

end

/-- JSON.parse: parse a complete value with only whitespace after it;
any parse failure models the exception JSON.parse would throw. -/
def jsonParse (s : String) : Option JsValue :=
  match parseValue (s.length + 1) s.toList with
  | some (v, rest) => if skipWs rest = [] then some v else none
  | none => none

/-- Value of one base64url alphabet character. -/
def b64Val (c : Char) : Option Nat :=
  if 65 ≤ c.toNat ∧ c.toNat ≤ 90 then some (c.toNat - 65)
  else if 97 ≤ c.toNat ∧ c.toNat ≤ 122 then some (c.toNat - 97 + 26)
  else if 48 ≤ c.toNat ∧ c.toNat ≤ 57 then some (c.toNat - 48 + 52)
  else if c = '-' then some 62
  else if c = '_' then some 63
  else none

/-- Reassemble bytes from 6-bit groups (4 groups to 3 bytes; a final
group of 2 or 3 yields 1 or 2 bytes; a lone trailing group is invalid). -/
def b64Bytes : List Nat → Option (List Nat)
  | [] => some []
  | [_] => none
  | [a, b] => some [a * 4 + b / 16]
  | [a, b, c] => some [a * 4 + b / 16, (b % 16) * 16 + c / 4]
  | a :: b :: c :: d :: rest =>
    match b64Bytes rest with
    | some bytes => some ((a * 4 + b / 16) :: ((b % 16) * 16 + c / 4) :: ((c % 4) * 64 + d) :: bytes)
    | none => none

/-- Buffer.from with the base64url encoding, then toString: padding is tolerated, any
character outside the alphabet makes the decode fail (Node is more
lenient with foreign characters, but no claim depends on that corner),
and bytes are read back as one character each (the payloads at issue
are ASCII). -/
def base64urlDecode (s : String) : Option String :=
  match (s.toList.filter (fun c => c ≠ '=')).mapM b64Val with
  | none => none
  | some vals =>
    match b64Bytes vals with
    | some bytes => some (String.mk (bytes.map Char.ofNat))
    | none => none

/-- JavaScript truthiness of a JSON value. -/
def jsTruthy : JsValue → Bool
  | JsValue.null => false
  | JsValue.bool b => b
  | JsValue.num n => n ≠ 0
  | JsValue.str s => s ≠ ""
  | JsValue.arr _ => true
  | JsValue.obj _ => true

/-- Number(s) for a string: leading and trailing whitespace ignored,
empty means 0, otherwise an optionally signed digit run; anything else
(floats, hex) is NaN, encoded as none. -/
def jsStringToNumber (s : String) : Option Int :=
  match skipWs s.toList with
  | [] => some 0
  | '-' :: cs =>
    match takeDigits cs with
    | ([], _) => none
    | (ds, rest) => if skipWs rest = [] then some (-(Int.ofNat (digitsToNat ds))) else none
  | '+' :: cs =>
    match takeDigits cs with
    | ([], _) => none
    | (ds, rest) => if skipWs rest = [] then some (Int.ofNat (digitsToNat ds)) else none
  | cs =>
    match takeDigits cs with
    | ([], _) => none
    | (ds, rest) => if skipWs rest = [] then some (Int.ofNat (digitsToNat ds)) else none

/-- JavaScript numeric coercion of a JSON value, none encoding NaN.
Arrays and objects coerce through their string form in JavaScript; the
model maps them to NaN, a corner no claim depends on. -/
def jsToNumber : JsValue → Option Int
  | JsValue.null => some 0
  | JsValue.bool b => some (if b then 1 else 0)
  | JsValue.num n => some n
  | JsValue.str s => jsStringToNumber s
  | JsValue.arr _ => none
  | JsValue.obj _ => none

/-- Property lookup on a JSON value: objects yield the last binding of
the key (JSON.parse keeps the last duplicate), everything else yields
undefined (none).  Lookup on null throws in JavaScript and is handled
separately at each call site. -/
def jsGetField (v : JsValue) (key : String) : Option JsValue :=
  match v with
  | JsValue.obj fields => fields.foldl (fun acc kv => if kv.1 = key then some kv.2 else acc) none
  | _ => none

/-- JavaScript `v <= n` for a possibly-undefined left operand and a
number: comparisons against undefined or NaN are false, otherwise the
left side is numerically coerced. -/
def jsCmpLe (v : Option JsValue) (n : Int) : Bool :=
  match v with
  | none => false
  | some w =>
    match jsToNumber w with
    | none => false
    | some m => m ≤ n

/-- JavaScript truthiness of a string-or-undefined value: undefined and
the empty string are falsy. -/
def strTruthy : Option String → Bool
  | none => false
  | some s => s ≠ ""

/-- JavaScript `x || d` where x is a number, null or NaN (none): null
and NaN and 0 all select the fallback. -/
def jsOrNum : Option Int → Int → Int
  | some n, d => if n = 0 then d else n
  | none, d => d

/-- JavaScript `s || d` for a string-or-undefined left operand. -/
def jsOrStr : Option String → String → String
  | some s, d => if s = "" then d else s
  | none, d => d

/-! Fixed paths and constants from src/src/lib/auth.ts.  os.homedir() is
abstracted as an opaque segment; no claim depends on its actual value. -/

def homedirStr : String := "HOME"

def joinPath (a b : String) : String := a ++ "/" ++ b

def CONFIG_DIR : String := joinPath (joinPath homedirStr ".config") "clippy"

def LOCK_FILE : String := joinPath CONFIG_DIR "browser.lock"

def TOKEN_CACHE_FILE : String := joinPath CONFIG_DIR "token-cache.json"

def LOCK_TIMEOUT : Int := 60000

def REFRESH_THRESHOLD : Int := 5 * 60 * 1000

/-- Split a character list at every occurrence of `sep`, as JavaScript
String.split with a one-character separator does. -/
def splitOnChar (sep : Char) : List Char → List (List Char)
  | [] => [[]]
  | c :: rest =>
    match splitOnChar sep rest with
    | [] => [[c]]
    | h :: t => if c = sep then [] :: h :: t else (c :: h) :: t

/-- token.split for the dot separator. -/
def splitDots (s : String) : List String :=
  (splitOnChar '.' s.toList).map String.mk

/-- getJwtExpiration from auth.ts: split on every dot; with exactly
three segments, base64url-decode the middle one, JSON.parse it and
return `payload.exp ? payload.exp * 1000 : null`; every failure in the
try block (decode garbage, parse error, property access on null) is
caught and becomes null.  none conflates null and NaN, which the sole
caller treats identically (both are falsy at `||`). -/
def getJwtExpiration (token : String) : Option Int :=
  match splitDots token with
  | [_, p, _] =>
    match (base64urlDecode p).bind jsonParse with
    | none => none
    | some JsValue.null => none
    | some payload =>
      match jsGetField payload "exp" with
      | none => none
      | some e => if jsTruthy e then (jsToNumber e).map (fun n => n * 1000) else none
  | _ => none

/-- needsRefresh computation: `(cached.expiresAt - now) < REFRESH_THRESHOLD`
with JavaScript coercion (undefined or NaN operands make it false). -/
def needsRefreshCalc (v : Option JsValue) (now : Int) : Bool :=
  match v with
  | none => false
  | some w =>
    match jsToNumber w with
    | none => false
    | some m => m - now < REFRESH_THRESHOLD

/-- getCachedToken from auth.ts.  The file content is an input: none
models a missing or unreadable file.  JSON.parse failures and the
TypeError from `null.expiresAt` are caught and yield null; any other
parsed value is used as-is (the `as CachedToken` cast checks nothing),
so the expiry test runs under JavaScript comparison semantics. -/
def getCachedToken (fileContent : Option String) (now : Int) : Option (JsValue × Bool) :=
  match fileContent with
  | none => none
  | some data =>
    match jsonParse data with
    | none => none
    | some JsValue.null => none
    | some cached =>
      if jsCmpLe (jsGetField cached "expiresAt") now then none
      else some (cached, needsRefreshCalc (jsGetField cached "expiresAt") now)

/-- The CachedToken record assembled by setCachedToken. -/
structure CachedTokenRec where
  token : String
  graphToken : Option String
  expiresAt : Int
deriving DecidableEq

/-- The record setCachedToken persists: expiresAt is the embedded JWT
expiry, or capture time plus 55 minutes when that is null (or NaN or 0,
by JavaScript `||`). -/
def setCachedTokenRecord (token : String) (graphToken : Option String) (now : Int) :
    CachedTokenRec :=
  { token := token, graphToken := graphToken,
    expiresAt := jsOrNum (getJwtExpiration token) (now + 55 * 60 * 1000) }

/-- Escape one character for JSON.stringify (quote, backslash and the
common control characters; other characters pass through). -/
def escapeJsonChar (c : Char) : String :=
  if c = '"' then "\\\""
  else if c = '\\' then "\\\\"
  else if c = '\n' then "\\n"
  else if c = '\r' then "\\r"
  else if c = '\t' then "\\t"
  else String.mk [c]

/-- JSON string escaping. -/
def jsonEscape (s : String) : String :=
  String.join (s.toList.map escapeJsonChar)

/-- JSON.stringify of the CachedToken record, in property order, with an
undefined graphToken omitted. -/
def stringifyCached (r : CachedTokenRec) : String :=
  "\x7b\"token\":\"" ++ jsonEscape r.token ++ "\"" ++
    (match r.graphToken with
     | some g => ",\"graphToken\":\"" ++ jsonEscape g ++ "\""
     | none => "") ++
    ",\"expiresAt\":" ++ toString r.expiresAt ++ "\x7d"

/-- Filesystem operations the cache and lock code can issue. -/
inductive FsOp where
  | mkdirRec : String → FsOp
  | writeFileDirect : String → String → FsOp
  | renameFile : String → String → FsOp
  | unlinkFile : String → FsOp
deriving DecidableEq

/-- The filesystem operations setCachedToken performs on the fault-free
path: create the config directory, then one fs.writeFile call aimed
directly at the final cache path. -/
def setCachedTokenOps (token : String) (graphToken : Option String) (now : Int) : List FsOp :=
  [FsOp.mkdirRec CONFIG_DIR,
   FsOp.writeFileDirect TOKEN_CACHE_FILE (stringifyCached (setCachedTokenRecord token graphToken now))]

/-- Injected filesystem faults for the cache write. -/
structure FsFaults where
  mkdirFails : Bool
  writeFails : Bool
deriving DecidableEq

/-- The body of the setCachedToken try block under injected faults: the
error that escapes the block (if any) and the operations completed. -/
def setCachedTokenAttempt (token : String) (graphToken : Option String) (now : Int)
    (faults : FsFaults) : Option String × List FsOp :=
  if faults.mkdirFails then (some "mkdir failed", [])
  else if faults.writeFails then (some "write failed", [FsOp.mkdirRec CONFIG_DIR])
  else (none, setCachedTokenOps token graphToken now)

/-- setCachedToken as observed by its caller: the catch block swallows
whatever the try block threw, so the returned error channel is always
empty and only the completed operations remain. -/
def setCachedTokenRun (token : String) (graphToken : Option String) (now : Int)
    (faults : FsFaults) : Option String × List FsOp :=
  (none, (setCachedTokenAttempt token graphToken now faults).2)

/-- Is this operation a rename? -/
def isRenameOp : FsOp → Bool
  | FsOp.renameFile _ _ => true
  | _ => false

/-- Modelled from the spec: an atomic replacement of `finalPath` writes
the full content to a temporary path first and renames it onto the final
path; in particular no write is ever aimed directly at the final path. -/
def atomicReplaceWrite (ops : List FsOp) (finalPath : String) : Bool :=
  ops.all (fun op =>
    match op with
    | FsOp.writeFileDirect p _ => p ≠ finalPath
    | _ => true) &&
  ops.any (fun op =>
    match op with
    | FsOp.writeFileDirect p _ =>
      decide (p ≠ finalPath) &&
        ops.any (fun op2 => decide (op2 = FsOp.renameFile p finalPath))
    | _ => false)

/-- parseInt(s, 10): skip leading whitespace, optional sign, then the
longest digit run; NaN (none) when no digit follows, otherwise the value
of that run with any trailing text ignored. -/
def parseIntJS (s : String) : Option Int :=
  match skipWs s.toList with
  | '-' :: cs =>
    match takeDigits cs with
    | ([], _) => none
    | (ds, _) => some (-(Int.ofNat (digitsToNat ds)))
  | '+' :: cs =>
    match takeDigits cs with
    | ([], _) => none
    | (ds, _) => some (Int.ofNat (digitsToNat ds))
  | cs =>
    match takeDigits cs with
    | ([], _) => none
    | (ds, _) => some (Int.ofNat (digitsToNat ds))

/-- Observable steps of one acquireLock call. -/
inductive LockEvent where
  | slept500 : LockEvent
  | deletedStale : LockEvent
  | createdMarker : LockEvent
deriving DecidableEq

/-- Prepend an event to a loop result. -/
def prependEv (e : LockEvent) (r : Option Int × List LockEvent) : Option Int × List LockEvent :=
  (r.1, e :: r.2)

/-- The acquireLock polling loop under a static environment: the lock
marker content is fixed unless this process deletes it, and no rival
process races the exclusive create (the claims under proof concern one
waiter against a pre-existing marker).  Each iteration mirrors auth.ts:
inside the deadline, read the marker; a parsed timestamp older than
LOCK_TIMEOUT is stale, so unlink and fall through to the exclusive
create in the same iteration; otherwise (including NaN from parseInt,
whose comparison is false) sleep 500 ms and retry; a missing marker goes
straight to the create.  The result is the acquisition instant or none
at the deadline.  Fuel only bounds the recursion and is irrelevant once
large enough for the deadline. -/
def acquireLockGo : Nat → Int → Int → Int → Option String → Option Int × List LockEvent
  | 0, _, _, _, _ => (none, [])
  | Nat.succ fuel, startTime, timeout, now, lockContent =>
    if now - startTime < timeout then
      match lockContent with
      | some lockData =>
        match parseIntJS lockData with
        | some lockTime =>
          if now - lockTime > LOCK_TIMEOUT then
            (some now, [LockEvent.deletedStale, LockEvent.createdMarker])
          else
            prependEv LockEvent.slept500 (acquireLockGo fuel startTime timeout (now + 500) lockContent)
        | none =>
          prependEv LockEvent.slept500 (acquireLockGo fuel startTime timeout (now + 500) lockContent)
      | none => (some now, [LockEvent.createdMarker])
    else (none, [])

/-- Fuel that always outlasts the deadline. -/
def acquireLockFuel (timeout : Int) : Nat := timeout.toNat / 500 + 2

/-- acquireLock from auth.ts, entered at instant `now` with the given
marker state. -/
def acquireLock (timeout : Int) (now : Int) (lockContent : Option String) :
    Option Int × List LockEvent :=
  acquireLockGo (acquireLockFuel timeout) now timeout now lockContent

/-- PlaywrightTokenResult from auth.ts. -/
structure PlaywrightTokenResult where
  success : Bool
  token : Option String := none
  graphToken : Option String := none
  error : Option String := none

/-- What one browser-automation run can produce: the final values of the
captured-token variables, or an exception thrown inside the try block. -/
inductive CaptureOutcome where
  | tokens : Option String → Option String → CaptureOutcome
  | thrown : String → CaptureOutcome

/-- The extraction environment: whether acquireLock succeeds for a given
timeout, and what the browser run captures per mode and deadline.  Both
are oracles standing for the filesystem race and the network. -/
structure BrowserEnv where
  acquire : Int → Bool
  capture : Bool → Int → CaptureOutcome

/-- Observable steps of an extraction invocation. -/
inductive ExtractEvent where
  | lockAttempt : Int → Bool → ExtractEvent
  | browserRun : Bool → ExtractEvent
  | lockRelease : ExtractEvent

/-- tryExtractToken from auth.ts: acquire the lock with a 5 s timeout
when headless and 30 s when attended; on failure return the contention
error without touching the browser; otherwise run the browser, always
release the lock (also on the exception path), and classify the outcome
as in the source (`if (capturedToken)` means a null or empty capture is
a failure; `capturedGraphToken || undefined` drops an empty string). -/
def tryExtractToken (headless : Bool) (timeout : Int) (env : BrowserEnv) :
    PlaywrightTokenResult × List ExtractEvent :=
  let lockTimeout : Int := if headless then 5000 else 30000
  if env.acquire lockTimeout then
    match env.capture headless timeout with
    | CaptureOutcome.thrown msg =>
      ({ success := false, error := some msg },
       [ExtractEvent.lockAttempt lockTimeout true, ExtractEvent.browserRun headless,
        ExtractEvent.lockRelease])
    | CaptureOutcome.tokens p g =>
      if strTruthy p then
        ({ success := true, token := p, graphToken := if strTruthy g then g else none },
         [ExtractEvent.lockAttempt lockTimeout true, ExtractEvent.browserRun headless,
          ExtractEvent.lockRelease])
      else
        ({ success := false,
           error := some (if headless then "No active session found"
             else "Timeout: No Bearer token captured. Make sure you completed the login.") },
         [ExtractEvent.lockAttempt lockTimeout true, ExtractEvent.browserRun headless,
          ExtractEvent.lockRelease])
  else
    ({ success := false, error := some "Another browser session is in progress, please wait" },
     [ExtractEvent.lockAttempt lockTimeout false])

/-- extractTokenViaPlaywright from auth.ts: one attempt in the requested
mode; if a headless attempt fails for any reason, one more attended
attempt with a 60 s deadline; an attended attempt is never retried. -/
def extractTokenViaPlaywright (headless : Bool) (timeout : Int) (env : BrowserEnv) :
    PlaywrightTokenResult × List ExtractEvent :=
  let r := tryExtractToken headless timeout env
  if r.1.success then r
  else if headless then
    let r2 := tryExtractToken false 60000 env
    (r2.1, r.2 ++ r2.2)
  else r

/-- The sources resolveAuth can consult, in documented priority order. -/
inductive Source where
  | explicitTok : Source
  | envTok : Source
  | cacheSrc : Source
  | extraction : Source
deriving DecidableEq

/-- Observable steps of one resolveAuth invocation.  validateCall
records the exact value handed to the Session Validator and its answer;
cacheWrite records the record setCachedToken assembled and whether the
write reached disk (setCachedToken swallows the failure either way);
spawnBgRefresh marks the detached background-refresh task being
launched. -/
inductive AuthEvent where
  | consult : Source → AuthEvent
  | validateCall : Option JsValue → Bool → AuthEvent
  | cacheWrite : CachedTokenRec → Bool → AuthEvent
  | spawnBgRefresh : AuthEvent

/-- AuthResult from auth.ts.  Token values are JsValues because a cache
hit returns whatever the parsed file held at `token`, checked by no one. -/
structure AuthResult where
  success : Bool
  token : Option JsValue := none
  graphToken : Option JsValue := none
  error : Option String := none

/-- resolveAuth options: the caller-supplied token and the interactive
flag. -/
structure ResolveOpts where
  token : Option String := none
  interactive : Bool := false

/-- The resolveAuth environment: the Session Validator oracle (applied
to the exact value the code would send), the CLIPPY_TOKEN environment
variable, the cache file content, the clock, the outcome
extractTokenViaPlaywright would produce if step 4 runs, the outcome the
detached background-refresh extraction would produce if spawned, and
whether the cache write fails on disk. -/
structure ResolveEnv where
  validate : Option JsValue → Bool
  envToken : Option String
  cacheFile : Option String
  now : Int
  extract : PlaywrightTokenResult
  bgExtract : PlaywrightTokenResult
  writeFaulty : Bool

/-- Events of the detached background-refresh task: the extraction runs
with no validation, and its token is cached whenever
`result.success && result.token` holds. -/
def bgRefreshEvents (env : ResolveEnv) : List AuthEvent :=
  if env.bgExtract.success && strTruthy env.bgExtract.token then
    [AuthEvent.cacheWrite
      (setCachedTokenRecord (env.bgExtract.token.getD "") env.bgExtract.graphToken env.now)
      (!env.writeFaulty)]
  else []

/-- Step 4 of resolveAuth (interactive Playwright extraction), entered
after the cache failed; `pre` holds the events already emitted. -/
def resolveStep4 (opts : ResolveOpts) (env : ResolveEnv) (pre : List AuthEvent) :
    AuthResult × List AuthEvent × List AuthEvent :=
  if opts.interactive then
    let pr := env.extract
    if pr.success && strTruthy pr.token then
      let t := pr.token.getD ""
      let ok := env.validate (some (JsValue.str t))
      if ok then
        ({ success := true, token := some (JsValue.str t), graphToken := pr.graphToken.map JsValue.str },
         pre ++ [AuthEvent.consult Source.extraction,
           AuthEvent.validateCall (some (JsValue.str t)) ok,
           AuthEvent.cacheWrite (setCachedTokenRecord t pr.graphToken env.now) (!env.writeFaulty)],
         [])
      else
        ({ success := false, error := some "Extracted token is invalid or expired" },
         pre ++ [AuthEvent.consult Source.extraction,
           AuthEvent.validateCall (some (JsValue.str t)) ok],
         [])
    else
      ({ success := false, error := some (jsOrStr pr.error "Failed to extract token via browser") },
       pre ++ [AuthEvent.consult Source.extraction], [])
  else
    ({ success := false,
       error := some "No token available. Set CLIPPY_TOKEN env var or run with --interactive to extract via browser." },
     pre, [])

/-- resolveAuth from auth.ts.  Returns the result, the events of the
invocation itself, and the events of the detached background-refresh
task (empty unless it was spawned).  Priorities exactly as in the
source: a truthy CLI token is validated and is terminal either way; then
a truthy CLIPPY_TOKEN likewise; then a cache hit is validated, a success
optionally spawning the detached refresh when the remaining lifetime is
short and the caller is interactive; a missed or invalid cache falls
through to interactive extraction. -/
def resolveAuth (opts : ResolveOpts) (env : ResolveEnv) :
    AuthResult × List AuthEvent × List AuthEvent :=
  if strTruthy opts.token then
    let t := opts.token.getD ""
    let ok := env.validate (some (JsValue.str t))
    if ok then
      ({ success := true, token := some (JsValue.str t) },
       [AuthEvent.consult Source.explicitTok, AuthEvent.validateCall (some (JsValue.str t)) ok], [])
    else
      ({ success := false, error := some "Provided token is invalid or expired" },
       [AuthEvent.consult Source.explicitTok, AuthEvent.validateCall (some (JsValue.str t)) ok], [])
  else if strTruthy env.envToken then
    let t := env.envToken.getD ""
    let ok := env.validate (some (JsValue.str t))
    if ok then
      ({ success := true, token := some (JsValue.str t) },
       [AuthEvent.consult Source.envTok, AuthEvent.validateCall (some (JsValue.str t)) ok], [])
    else
      ({ success := false,
         error := some "CLIPPY_TOKEN environment variable contains invalid or expired token" },
       [AuthEvent.consult Source.envTok, AuthEvent.validateCall (some (JsValue.str t)) ok], [])
  else
    match getCachedToken env.cacheFile env.now with
    | some (cached, needsRefresh) =>
      let tok := jsGetField cached "token"
      let ok := env.validate tok
      if ok then
        if needsRefresh && opts.interactive then
          ({ success := true, token := tok, graphToken := jsGetField cached "graphToken" },
           [AuthEvent.consult Source.cacheSrc, AuthEvent.validateCall tok ok,
            AuthEvent.spawnBgRefresh],
           bgRefreshEvents env)
        else
          ({ success := true, token := tok, graphToken := jsGetField cached "graphToken" },
           [AuthEvent.consult Source.cacheSrc, AuthEvent.validateCall tok ok], [])
      else
        resolveStep4 opts env
          [AuthEvent.consult Source.cacheSrc, AuthEvent.validateCall tok ok]
    | none => resolveStep4 opts env [AuthEvent.consult Source.cacheSrc]

/-- One pass of the keepalive loop body that persists tokens: when a
primary token has been captured, cache it (with `lastGraphToken ||
undefined`); nothing is validated here. -/
def keepaliveIterationEvents (lastToken : Option String) (lastGraphToken : Option String)
    (now : Int) : List AuthEvent :=
  if strTruthy lastToken then
    [AuthEvent.cacheWrite
      (setCachedTokenRecord (lastToken.getD "")
        (if strTruthy lastGraphToken then lastGraphToken else none) now) true]
  else []

/-- The sources an invocation consulted, in order. -/
def consultsOf (evs : List AuthEvent) : List Source :=
  evs.filterMap fun e =>
    match e with
    | AuthEvent.consult s => some s
    | _ => none

/-- Whether the cache step would terminate the resolution: a present,
unexpired record whose token the Session Validator accepts. -/
def cacheHitValid (env : ResolveEnv) : Bool :=
  match getCachedToken env.cacheFile env.now with
  | some (c, _) => env.validate (jsGetField c "token")
  | none => false

/-- Modelled from the spec (P1, section 4.6): the sources the Resolver
must consult, in documented priority order, stopping at the first
validated success; a source is skipped only when absent (a falsy
explicit or environment token), and extraction runs only for an
interactive caller after the cache failed. -/
def specConsults (opts : ResolveOpts) (env : ResolveEnv) : List Source :=
  if strTruthy opts.token then [Source.explicitTok]
  else if strTruthy env.envToken then [Source.envTok]
  else if cacheHitValid env then [Source.cacheSrc]
  else if opts.interactive then [Source.cacheSrc, Source.extraction]
  else [Source.cacheSrc]

/-- Modelled from the spec (P1, section 4.6): resolution succeeds at the
first source in priority order that yields a validated credential. -/
def specSuccess (opts : ResolveOpts) (env : ResolveEnv) : Bool :=
  if strTruthy opts.token then env.validate (some (JsValue.str (opts.token.getD "")))
  else if strTruthy env.envToken then env.validate (some (JsValue.str (env.envToken.getD "")))
  else if cacheHitValid env then true
  else if opts.interactive then
    env.extract.success && strTruthy env.extract.token &&
      env.validate (some (JsValue.str (env.extract.token.getD "")))
  else false

/-! Concrete environments used to witness or refute the claims. -/

/-- A resolver run with an explicit token the validator rejects. -/
def optsC8 : ResolveOpts := { token := some "bad" }

/-- An environment whose Session Validator rejects everything. -/
def envC8 : ResolveEnv :=
  { validate := fun _ => false, envToken := none, cacheFile := none, now := 0,
    extract := { success := false }, bgExtract := { success := false }, writeFaulty := false }

/-- An interactive resolver run with no explicit token. -/
def optsInteractive : ResolveOpts := { interactive := true }

/-- An environment with a valid near-expiry cache hit whose background
refresh extracts a token the validator would reject: the validator only
accepts "good", the cache holds "good" with 199999 ms of life left, and
the detached refresh harvests "bad". -/
def envC1 : ResolveEnv :=
  { validate := fun v =>
      match v with
      | some (JsValue.str s) => s = "good"
      | _ => false,
    envToken := none,
    cacheFile := some "\x7b\"token\":\"good\",\"expiresAt\":9999999\x7d",
    now := 9800000,
    extract := { success := false },
    bgExtract := { success := true, token := some "bad" },
    writeFaulty := false }

/-- An interactive run whose extraction succeeds with "tok" and whose
validator accepts everything: step 4 validates and caches the token. -/
def envW1 : ResolveEnv :=
  { validate := fun _ => true, envToken := none, cacheFile := none, now := 0,
    extract := { success := true, token := some "tok" }, bgExtract := { success := false },
    writeFaulty := false }

/-- A browser environment in which every lock acquisition fails. -/
def envLockBusy : BrowserEnv :=
  { acquire := fun _ => false, capture := fun _ _ => CaptureOutcome.tokens none none }

/-- An interactive run whose extraction succeeds with "fresh", whose
validator accepts everything, and whose cache write fails on disk. -/
def envC10 : ResolveEnv :=
  { validate := fun _ => true, envToken := none, cacheFile := none, now := 0,
    extract := { success := true, token := some "fresh" }, bgExtract := { success := false },
    writeFaulty := true }

/-- C2: resolveAuth consults the sources explicit token, environment
override, token cache, interactive extraction in that strict order;
an absent (falsy) token skips its source, a later source is consulted
only after every earlier one failed, and resolution succeeds exactly at
the first source yielding a validated credential.  The detached
background refresh a near-expiry cache hit spawns is a persistence task,
not a consultation of the resolution chain, and is recorded separately. -/
theorem resolveAuth_priority_order (opts : ResolveOpts) (env : ResolveEnv) :
    consultsOf (resolveAuth opts env).2.1 = specConsults opts env ∧
    (resolveAuth opts env).1.success = specSuccess opts env := by
  unfold resolveAuth specConsults specSuccess cacheHitValid
  by_cases h1 : strTruthy opts.token
  · by_cases h2 : env.validate (some (JsValue.str (opts.token.getD ""))) <;>
      simp [h1, h2, consultsOf]
  · by_cases h3 : strTruthy env.envToken
    · by_cases h4 : env.validate (some (JsValue.str (env.envToken.getD ""))) <;>
        simp [h1, h3, h4, consultsOf]
    · rcases hc : getCachedToken env.cacheFile env.now with _ | ⟨c, nr⟩
      · by_cases h5 : opts.interactive
        · by_cases h6 : env.extract.success && strTruthy env.extract.token
          · by_cases h7 : env.validate (some (JsValue.str (env.extract.token.getD ""))) <;>
              simp [h1, h3, h5, h6, h7, hc, consultsOf, resolveStep4]
          · simp [h1, h3, h5, h6, hc, consultsOf, resolveStep4]
        · simp [h1, h3, h5, hc, consultsOf, resolveStep4]
      · by_cases h8 : env.validate (jsGetField c "token")
        · by_cases h9 : nr && opts.interactive <;>
            simp [h1, h3, h8, h9, hc, consultsOf]
        · by_cases h5 : opts.interactive
          · by_cases h6 : env.extract.success && strTruthy env.extract.token
            · by_cases h7 : env.validate (some (JsValue.str (env.extract.token.getD ""))) <;>
                simp [h1, h3, h5, h6, h7, h8, hc, consultsOf, resolveStep4]
            · simp [h1, h3, h5, h6, h8, hc, consultsOf, resolveStep4]
          · simp [h1, h3, h5, h8, hc, consultsOf, resolveStep4]

/-- C8: an explicit caller-supplied token that fails validation is an
immediate terminal failure with the invalid-credential message, with no
fallback source consulted, no cache write and no detached task; the same
holds for an environment-override token that fails validation. -/
theorem invalid_explicit_or_env_token_terminal (opts : ResolveOpts) (env : ResolveEnv) :
    (strTruthy opts.token = true →
      env.validate (some (JsValue.str (opts.token.getD ""))) = false →
      resolveAuth opts env =
        ({ success := false, error := some "Provided token is invalid or expired" },
         [AuthEvent.consult Source.explicitTok,
          AuthEvent.validateCall (some (JsValue.str (opts.token.getD ""))) false], [])) ∧
    (strTruthy opts.token = false → strTruthy env.envToken = true →
      env.validate (some (JsValue.str (env.envToken.getD ""))) = false →
      resolveAuth opts env =
        ({ success := false,
           error := some "CLIPPY_TOKEN environment variable contains invalid or expired token" },
         [AuthEvent.consult Source.envTok,
          AuthEvent.validateCall (some (JsValue.str (env.envToken.getD ""))) false], [])) := by
  constructor
  · intro h1 h2
    simp [resolveAuth, h1, h2]
  · intro h1 h2 h3
    simp [resolveAuth, h1, h2, h3]

/-- Witness for C8 at a concrete input: an explicit "bad" token under an
all-rejecting validator is terminal with only the explicit source
consulted. -/
theorem invalid_explicit_or_env_token_terminal_witness :
    resolveAuth optsC8 envC8 =
      ({ success := false, error := some "Provided token is invalid or expired" },
       [AuthEvent.consult Source.explicitTok,
        AuthEvent.validateCall (some (JsValue.str (optsC8.token.getD ""))) false], []) :=
  (invalid_explicit_or_env_token_terminal optsC8 envC8).1 rfl rfl

/-- C1 (amended): the credential resolveAuth returns with success was
validated with answer true during that invocation, and every cache write
the invocation itself performs (resolver step 4) is of a token validated
with answer true in that invocation; but the detached background-refresh
task and the keepalive loop perform no validation at all before writing. -/
theorem resolveAuth_validation_discipline (opts : ResolveOpts) (env : ResolveEnv) :
    ((resolveAuth opts env).1.success = true →
      AuthEvent.validateCall (resolveAuth opts env).1.token true ∈ (resolveAuth opts env).2.1) ∧
    (∀ rec ok, AuthEvent.cacheWrite rec ok ∈ (resolveAuth opts env).2.1 →
      AuthEvent.validateCall (some (JsValue.str rec.token)) true ∈ (resolveAuth opts env).2.1) ∧
    (∀ e ∈ (resolveAuth opts env).2.2, ∀ v b, e ≠ AuthEvent.validateCall v b) ∧
    (∀ lt lg n e, e ∈ keepaliveIterationEvents lt lg n → ∀ v b, e ≠ AuthEvent.validateCall v b) := by
  have hK : ∀ lt lg n e, e ∈ keepaliveIterationEvents lt lg n →
      ∀ v b, e ≠ AuthEvent.validateCall v b := by
    intro lt lg n e he v b
    unfold keepaliveIterationEvents at he
    by_cases h : strTruthy lt
    · simp [h] at he
      simp [he]
    · simp [h] at he
  have hB : ∀ e ∈ bgRefreshEvents env, ∀ v b, e ≠ AuthEvent.validateCall v b := by
    intro e he v b
    unfold bgRefreshEvents at he
    by_cases h : env.bgExtract.success && strTruthy env.bgExtract.token
    · simp [h] at he
      simp [he]
    · simp [h] at he
  refine ⟨?_, ?_, ?_, hK⟩ <;>
  · unfold resolveAuth
    by_cases h1 : strTruthy opts.token
    · by_cases h2 : env.validate (some (JsValue.str (opts.token.getD ""))) <;> simp [h1, h2]
    · by_cases h3 : strTruthy env.envToken
      · by_cases h4 : env.validate (some (JsValue.str (env.envToken.getD ""))) <;>
          simp [h1, h3, h4]
      · rcases hc : getCachedToken env.cacheFile env.now with _ | ⟨c, nr⟩
        · by_cases h5 : opts.interactive
          · by_cases h6 : env.extract.success && strTruthy env.extract.token
            · by_cases h7 : env.validate (some (JsValue.str (env.extract.token.getD ""))) <;>
                simp [h1, h3, h5, h6, h7, hc, resolveStep4, setCachedTokenRecord]
            · simp [h1, h3, h5, h6, hc, resolveStep4]
          · simp [h1, h3, h5, hc, resolveStep4]
        · by_cases h8 : env.validate (jsGetField c "token")
          · by_cases h9 : nr && opts.interactive <;>
              simp [h1, h3, h8, h9, hc] <;>
              try
                intro e he v
                exact ⟨hB e he v false, hB e he v true⟩
          · by_cases h5 : opts.interactive
            · by_cases h6 : env.extract.success && strTruthy env.extract.token
              · by_cases h7 : env.validate (some (JsValue.str (env.extract.token.getD ""))) <;>
                  simp [h1, h3, h5, h6, h7, h8, hc, resolveStep4, setCachedTokenRecord]
              · simp [h1, h3, h5, h6, h8, hc, resolveStep4]
            · simp [h1, h3, h5, h8, hc, resolveStep4]

/-- Counterexample to C1 as stated: a resolution that succeeds from a
valid near-expiry cache hit spawns the background refresh, and the
refresh task caches the freshly extracted token "bad" although no
validateSession call about "bad" occurs anywhere in the run (the only
validation is of the cached "good", and the validator would reject
"bad"). -/
theorem bg_refresh_writes_unvalidated_token :
    resolveAuth optsInteractive envC1 =
      ({ success := true, token := some (JsValue.str "good"), graphToken := none },
       [AuthEvent.consult Source.cacheSrc,
        AuthEvent.validateCall (some (JsValue.str "good")) true,
        AuthEvent.spawnBgRefresh],
       [AuthEvent.cacheWrite { token := "bad", graphToken := none, expiresAt := 13100000 } true]) := by
  rfl

/-- Witness for C1 (amended) at a concrete input: an interactive run
whose extraction succeeds validates the served token, and the token of
its step-4 cache write was validated with answer true. -/
theorem resolveAuth_validation_discipline_witness :
    AuthEvent.validateCall (resolveAuth optsInteractive envW1).1.token true ∈
        (resolveAuth optsInteractive envW1).2.1 ∧
    AuthEvent.validateCall
        (some (JsValue.str
          ({ token := "tok", graphToken := none, expiresAt := 3300000 } : CachedTokenRec).token))
        true ∈ (resolveAuth optsInteractive envW1).2.1 := by
  constructor
  · exact (resolveAuth_validation_discipline optsInteractive envW1).1 rfl
  · refine (resolveAuth_validation_discipline optsInteractive envW1).2.1 _ true ?_
    have h : (resolveAuth optsInteractive envW1).2.1 =
        [AuthEvent.consult Source.cacheSrc, AuthEvent.consult Source.extraction,
         AuthEvent.validateCall (some (JsValue.str "tok")) true,
         AuthEvent.cacheWrite { token := "tok", graphToken := none, expiresAt := 3300000 } true] :=
      rfl
    rw [h]
    exact List.mem_cons_of_mem _ (List.mem_cons_of_mem _ (List.mem_cons_of_mem _
      (List.mem_cons_self _ _)))

/-- C3 (amended): setCachedToken ensures the configuration directory and
then issues a single fs.writeFile aimed directly at the final cache
path; no rename is involved, so the write is a full in-place replacement
rather than an atomic temp-then-rename replace. -/
theorem setCachedToken_direct_write (token : String) (g : Option String) (now : Int) :
    setCachedTokenOps token g now =
      [FsOp.mkdirRec CONFIG_DIR,
       FsOp.writeFileDirect TOKEN_CACHE_FILE (stringifyCached (setCachedTokenRecord token g now))] ∧
    (setCachedTokenOps token g now).all (fun op => !isRenameOp op) = true := by
  exact ⟨rfl, rfl⟩

/-- Counterexample to C3 as stated: at a concrete input the operation
trace of setCachedToken is not an atomic replace of the cache file (it
writes the final path directly and performs no rename). -/
theorem setCachedToken_not_atomic_replace :
    atomicReplaceWrite (setCachedTokenOps "tok" none 0) TOKEN_CACHE_FILE = false := by
  decide

/-- C4 (amended): an extraction attempt whose lock acquisition fails
returns the contention failure without running the browser, and is not
retried at the tryExtractToken level; however extractTokenViaPlaywright
escalates every failed headless attempt — including one that failed only
for lock contention — to one attended attempt that contends for the lock
again (with the 30 s attended lock deadline); an attended attempt is
never retried. -/
theorem lock_contention_behaviour (env : BrowserEnv) (timeout : Int) :
    (∀ headless : Bool, env.acquire (if headless then 5000 else 30000) = false →
      tryExtractToken headless timeout env =
        ({ success := false, error := some "Another browser session is in progress, please wait" },
         [ExtractEvent.lockAttempt (if headless then 5000 else 30000) false])) ∧
    (env.acquire 5000 = false →
      extractTokenViaPlaywright true timeout env =
        ((tryExtractToken false 60000 env).1,
         ExtractEvent.lockAttempt 5000 false :: (tryExtractToken false 60000 env).2)) ∧
    (env.acquire 30000 = false →
      extractTokenViaPlaywright false timeout env =
        ({ success := false, error := some "Another browser session is in progress, please wait" },
         [ExtractEvent.lockAttempt 30000 false])) := by
  refine ⟨?_, ?_, ?_⟩
  · intro headless h
    cases headless <;> simp_all [tryExtractToken]
  · intro h
    simp [extractTokenViaPlaywright, tryExtractToken, h]
  · intro h
    simp [extractTokenViaPlaywright, tryExtractToken, h]

/-- Witness for C4 (amended) at a concrete input: under an environment
whose lock is always busy, each conjunct instantiates. -/
theorem lock_contention_behaviour_witness :
    tryExtractToken true 15000 envLockBusy =
      ({ success := false, error := some "Another browser session is in progress, please wait" },
       [ExtractEvent.lockAttempt (if true then 5000 else 30000) false]) ∧
    extractTokenViaPlaywright true 15000 envLockBusy =
      ((tryExtractToken false 60000 envLockBusy).1,
       ExtractEvent.lockAttempt 5000 false :: (tryExtractToken false 60000 envLockBusy).2) ∧
    extractTokenViaPlaywright false 15000 envLockBusy =
      ({ success := false, error := some "Another browser session is in progress, please wait" },
       [ExtractEvent.lockAttempt 30000 false]) :=
  ⟨(lock_contention_behaviour envLockBusy 15000).1 true rfl,
   (lock_contention_behaviour envLockBusy 15000).2.1 rfl,
   (lock_contention_behaviour envLockBusy 15000).2.2 rfl⟩

/-- Counterexample to C4 as stated: a headless invocation that fails
purely for lock contention does make a second, attended attempt that
contends for the lock again — the invocation records two lock attempts. -/
theorem headless_contention_retries_attended :
    extractTokenViaPlaywright true 15000 envLockBusy =
      ({ success := false, error := some "Another browser session is in progress, please wait" },
       [ExtractEvent.lockAttempt 5000 false, ExtractEvent.lockAttempt 30000 false]) := by
  rfl

/-- C5 (amended): for a three-segment token whose middle segment
base64url-decodes and JSON-parses to a payload carrying a nonzero
numeric exp claim T, getJwtExpiration returns T*1000 milliseconds; a
token that does not split into three segments yields none (as does every
decode or parse failure, by the shape of the definition); and whenever
getJwtExpiration yields none, the cached expiration is capture time plus
55 minutes.  The unrestricted claim that exp = T gives T*1000 fails at
T = 0, which JavaScript truthiness sends to the fallback. -/
theorem getJwtExpiration_spec (token : String) (h p s : String) (payload : JsValue) (T : Int)
    (g : Option String) (n : Int) :
    (splitDots token = [h, p, s] →
      (base64urlDecode p).bind jsonParse = some payload →
      jsGetField payload "exp" = some (JsValue.num T) → T ≠ 0 →
      getJwtExpiration token = some (T * 1000)) ∧
    ((splitDots token).length ≠ 3 → getJwtExpiration token = none) ∧
    (getJwtExpiration token = none →
      (setCachedTokenRecord token g n).expiresAt = n + 55 * 60 * 1000) := by
  refine ⟨?_, ?_, ?_⟩
  · intro h1 h2 h3 h4
    unfold getJwtExpiration
    rcases payload <;> simp_all [jsGetField, jsTruthy, jsToNumber]
  · intro hlen
    unfold getJwtExpiration
    rcases hs : splitDots token with _ | ⟨a, _ | ⟨b, _ | ⟨c, _ | ⟨d, l⟩⟩⟩⟩ <;> simp_all
  · intro h0
    unfold setCachedTokenRecord
    simp [h0, jsOrNum]

/-- Witness for C5 (amended) at concrete inputs: a token embedding
exp = 1700000000 decodes to 1700000000000 ms, and a non-JWT token falls
back to capture time plus 55 minutes. -/
theorem getJwtExpiration_spec_witness :
    getJwtExpiration "hh.eyJleHAiOjE3MDAwMDAwMDB9.ss" = some (1700000000 * 1000) ∧
    (setCachedTokenRecord "notajwt" none 5).expiresAt = 5 + 55 * 60 * 1000 :=
  ⟨(getJwtExpiration_spec "hh.eyJleHAiOjE3MDAwMDAwMDB9.ss" "hh" "eyJleHAiOjE3MDAwMDAwMDB9" "ss"
      (JsValue.obj [("exp", JsValue.num 1700000000)]) 1700000000 none 0).1 rfl rfl rfl
      (by norm_num),
   (getJwtExpiration_spec "notajwt" "" "" "" JsValue.null 0 none 5).2.2 rfl⟩

/-- Counterexample to C5 as stated: the middle segment of this token
decodes to a payload with the numeric claim exp = 0, so the claim
demands 0*1000 = 0 milliseconds, but getJwtExpiration returns none
(JavaScript `payload.exp ?` treats 0 as falsy) and the fallback window
applies instead. -/
theorem getJwtExpiration_zero_exp :
    (base64urlDecode "eyJleHAiOjB9").bind jsonParse =
        some (JsValue.obj [("exp", JsValue.num 0)]) ∧
    getJwtExpiration "hh.eyJleHAiOjB9.ss" = none ∧
    (setCachedTokenRecord "hh.eyJleHAiOjB9.ss" none 7).expiresAt = 7 + 55 * 60 * 1000 := by
  exact ⟨rfl, rfl, rfl⟩

/-- C7 (amended): getCachedToken fails soft — it returns absent and
never raises — when the file is missing, when the content is rejected by
JSON.parse, when it parses to null (the property access throws and is
caught), and when the recorded expiresAt compares as elapsed under
JavaScript semantics; but content that parses to any other JSON value
whose expiresAt does not compare as elapsed is returned as a hit, even
when it is not of the expected shape (a missing or non-numeric expiresAt
makes the comparison false, so such records are served, not treated as
absent). -/
theorem getCachedToken_spec (data : String) (now : Int) (v : JsValue) :
    (getCachedToken none now = none) ∧
    (jsonParse data = none → getCachedToken (some data) now = none) ∧
    (jsonParse data = some JsValue.null → getCachedToken (some data) now = none) ∧
    (jsonParse data = some v → jsCmpLe (jsGetField v "expiresAt") now = true →
      getCachedToken (some data) now = none) ∧
    (jsonParse data = some v → v ≠ JsValue.null →
      jsCmpLe (jsGetField v "expiresAt") now = false →
      getCachedToken (some data) now =
        some (v, needsRefreshCalc (jsGetField v "expiresAt") now)) := by
  refine ⟨rfl, ?_, ?_, ?_, ?_⟩
  · intro h1
    simp [getCachedToken, h1]
  · intro h1
    simp [getCachedToken, h1]
  · intro h1 h2
    rcases v <;> simp_all [getCachedToken, jsGetField, jsCmpLe]
  · intro h1 h2 h3
    rcases v <;> simp_all [getCachedToken]

/-- Witness for C7 (amended) at concrete inputs: a record with
expiresAt 5 is absent at time 10 and a hit at time 1. -/
theorem getCachedToken_spec_witness :
    getCachedToken (some "\x7b\"expiresAt\":5\x7d") 10 = none ∧
    getCachedToken (some "\x7b\"expiresAt\":5\x7d") 1 =
      some (JsValue.obj [("expiresAt", JsValue.num 5)],
        needsRefreshCalc
          (jsGetField (JsValue.obj [("expiresAt", JsValue.num 5)]) "expiresAt") 1) :=
  ⟨(getCachedToken_spec "\x7b\"expiresAt\":5\x7d" 10
      (JsValue.obj [("expiresAt", JsValue.num 5)])).2.2.2.1 rfl rfl,
   (getCachedToken_spec "\x7b\"expiresAt\":5\x7d" 1
      (JsValue.obj [("expiresAt", JsValue.num 5)])).2.2.2.2 rfl (by simp) rfl⟩

/-- Counterexample to C7 as stated: "\x7b\x7d" is well-formed JSON but
not of the expected cache shape, yet getCachedToken returns it as a hit
(the comparison `undefined <= now` is false), instead of treating it as
absent as the claim requires. -/
theorem getCachedToken_wrong_shape_hit :
    jsonParse "\x7b\x7d" = some (JsValue.obj []) ∧
    getCachedToken (some "\x7b\x7d") 1000 = some (JsValue.obj [], false) := by
  exact ⟨rfl, rfl⟩

/-- C10: setCachedToken never rejects — under every injected filesystem
fault the caller-visible error channel is empty — and resolveAuth step 4
returns success with the freshly extracted token even when the cache
write failed on disk (the concrete run below has a failing write, and
its cache-write event is marked unsuccessful while the resolution
succeeds). -/
theorem setCachedToken_never_rejects :
    (∀ (t : String) (g : Option String) (now : Int) (faults : FsFaults),
      (setCachedTokenRun t g now faults).1 = none) ∧
    (resolveAuth optsInteractive envC10).1.success = true ∧
    (resolveAuth optsInteractive envC10).1.token = some (JsValue.str "fresh") ∧
    AuthEvent.cacheWrite { token := "fresh", graphToken := none, expiresAt := 3300000 } false ∈
      (resolveAuth optsInteractive envC10).2.1 := by
  refine ⟨fun t g now faults => rfl, rfl, rfl, ?_⟩
  have h : (resolveAuth optsInteractive envC10).2.1 =
      [AuthEvent.consult Source.cacheSrc, AuthEvent.consult Source.extraction,
       AuthEvent.validateCall (some (JsValue.str "fresh")) true,
       AuthEvent.cacheWrite { token := "fresh", graphToken := none, expiresAt := 3300000 } false] :=
    rfl
  rw [h]
  exact List.mem_cons_of_mem _ (List.mem_cons_of_mem _ (List.mem_cons_of_mem _
    (List.mem_cons_self _ _)))

/-- With a parseable marker timestamp and enough fuel to outlast the
deadline, the polling loop comes back empty exactly when the marker
never looks stale at any poll instant inside the deadline. -/
lemma acquireLockGo_none_iff (content : String) (t : Int) (hp : parseIntJS content = some t) :
    ∀ (fuel : Nat) (s timeout now : Int), timeout - (now - s) ≤ 500 * fuel →
      ((acquireLockGo fuel s timeout now (some content)).1 = none ↔
        ∀ k : Nat, now + 500 * k - s < timeout → now + 500 * k - t ≤ 60000) := by
  intro fuel
  induction fuel with
  | zero =>
    intro s timeout now hf
    simp only [acquireLockGo]
    constructor
    · intro _ k hk
      exfalso
      omega
    · intro _
      trivial
  | succ m ih =>
    intro s timeout now hf
    unfold acquireLockGo
    by_cases hd : now - s < timeout
    · simp only [hd, if_true, hp]
      by_cases hstale : now - t > LOCK_TIMEOUT
      · simp only [hstale, if_true]
        constructor
        · intro hcontra
          exact absurd hcontra (by simp)
        · intro hall
          exfalso
          have h0 := hall 0 (by omega)
          unfold LOCK_TIMEOUT at hstale
          omega
      · simp only [hstale, if_false, prependEv]
        have hrec := ih s timeout (now + 500) (by omega)
        simp only [hrec]
        constructor
        · intro hall k hk
          cases k with
          | zero =>
            unfold LOCK_TIMEOUT at hstale
            simp only [Nat.cast_zero]
            omega
          | succ j =>
            have hj := hall j (by push_cast at hk ⊢; omega)
            push_cast at hj ⊢
            omega
        · intro hall k hk
          have hj := hall (k + 1) (by push_cast at hk ⊢; omega)
          push_cast at hj ⊢
          omega
    · simp only [hd, if_false]
      constructor
      · intro _ k hk
        exfalso
        omega
      · intro _
        trivial

/-- With a corrupt (unparseable) marker, every iteration inside the
deadline just sleeps: nothing is ever deleted or created. -/
lemma acquireLockGo_corrupt (content : String) (hp : parseIntJS content = none) :
    ∀ (fuel : Nat) (s timeout now : Int),
      (acquireLockGo fuel s timeout now (some content)).1 = none ∧
      ∀ e ∈ (acquireLockGo fuel s timeout now (some content)).2, e = LockEvent.slept500 := by
  intro fuel
  induction fuel with
  | zero =>
    intro s timeout now
    simp [acquireLockGo]
  | succ m ih =>
    intro s timeout now
    unfold acquireLockGo
    by_cases hd : now - s < timeout
    · simp only [hd, if_true, hp, prependEv]
      obtain ⟨h1, h2⟩ := ih s timeout (now + 500)
      refine ⟨h1, ?_⟩
      intro e he
      rcases List.mem_cons.mp he with he | he
      · exact he
      · exact h2 e he
    · simp [hd]

/-- The wrapper fuel outlasts the deadline. -/
lemma acquireLockFuel_enough (timeout now : Int) :
    timeout - (now - now) ≤ 500 * (acquireLockFuel timeout : Int) := by
  unfold acquireLockFuel
  push_cast
  omega

/-- C6: for a waiter that finds an existing marker with a parseable
acquisition timestamp, (1) a marker more than 60 s old is deleted and
the lock acquired in the same iteration, with no sleep; (2) a fresh
marker makes the waiter sleep 500 ms first; (3) the call returns none
exactly when no poll instant inside the caller-supplied deadline ever
sees the marker as stale — in particular, whenever acquisition fails
the deadline was exhausted. -/
theorem acquireLock_stale_reclaim_spec (now timeout : Int) (content : String) (t : Int)
    (hp : parseIntJS content = some t) :
    ((0 < timeout ∧ now - t > 60000) →
      acquireLock timeout now (some content) =
        (some now, [LockEvent.deletedStale, LockEvent.createdMarker])) ∧
    ((0 < timeout ∧ ¬ now - t > 60000) →
      (acquireLock timeout now (some content)).2.head? = some LockEvent.slept500) ∧
    ((acquireLock timeout now (some content)).1 = none ↔
      ∀ k : Nat, 500 * k < timeout → now + 500 * k - t ≤ 60000) := by
  have hfuel : acquireLockFuel timeout = Nat.succ (timeout.toNat / 500 + 1) := rfl
  refine ⟨?_, ?_, ?_⟩
  · rintro ⟨hpos, hstale⟩
    unfold acquireLock
    rw [hfuel]
    unfold acquireLockGo
    simp [hp, LOCK_TIMEOUT, hstale, hpos]
  · rintro ⟨hpos, hfresh⟩
    unfold acquireLock
    rw [hfuel]
    unfold acquireLockGo
    simp [hp, LOCK_TIMEOUT, hfresh, hpos, prependEv]
  · have hiff := acquireLockGo_none_iff content t hp (acquireLockFuel timeout) now timeout now
      (acquireLockFuel_enough timeout now)
    unfold acquireLock
    rw [hiff]
    constructor
    · intro hall k hk
      exact hall k (by omega)
    · intro hall k hk
      exact hall k (by omega)

/-- Witness for C6 at concrete inputs: a marker written at time 0 is
stale for a waiter arriving at 70000 with a 100000 ms deadline and is
reclaimed at once; and with a 1200 ms deadline arriving at time 0 the
marker stays fresh at every poll, so acquisition returns none. -/
theorem acquireLock_stale_reclaim_spec_witness :
    acquireLock 100000 70000 (some "0") =
      (some 70000, [LockEvent.deletedStale, LockEvent.createdMarker]) ∧
    (acquireLock 1200 0 (some "0")).1 = none :=
  ⟨(acquireLock_stale_reclaim_spec 70000 100000 "0" 0 rfl).1 (by norm_num),
   ((acquireLock_stale_reclaim_spec 0 1200 "0" 0 rfl).2.2).mpr (by intro k hk; omega)⟩

/-- C9: a lock marker whose content parseInt cannot read (NaN) makes the
staleness comparison false forever, so the waiter never deletes or
creates anything — every recorded step is a 500 ms sleep — and the call
returns none at its deadline while the marker persists. -/
theorem corrupt_lock_marker_never_reclaimed (timeout now : Int) (content : String)
    (hp : parseIntJS content = none) :
    (acquireLock timeout now (some content)).1 = none ∧
    ∀ e ∈ (acquireLock timeout now (some content)).2, e = LockEvent.slept500 := by
  unfold acquireLock
  exact acquireLockGo_corrupt content hp (acquireLockFuel timeout) now timeout now

/-- Witness for C9 at a concrete input: a waiter with a 1200 ms deadline
against the unparseable marker "garbage" acquires nothing. -/
theorem corrupt_lock_marker_never_reclaimed_witness :
    (acquireLock 1200 0 (some "garbage")).1 = none :=
  (corrupt_lock_marker_never_reclaimed 1200 0 "garbage" rfl).1

end Clippy
